import Mathlib

/-!
Shallow embedding of the PowerTag Modbus discovery and register-polling
layer of the repository (the driver `src/drivers/powertag/driver.ts`
and its Modbus helper module).

A gateway is modelled as a deterministic read oracle: a request is a
triple (unit id, start register, register count) and a failed request
(timeout or Modbus exception response) is `none`.  Register values are
16-bit words modelled as `Nat`.  IEEE-754 interpretation of 32/64-bit
patterns is outside the embedding: poll-result fields hold the raw
big-endian bit patterns the source would pass to `readFloatBE` /
`readBigInt64BE`.  The platform-glue parts of a device entry
(capability lists, settings, `data.id`) are collaborator metadata and
are not modelled; the entry keeps name, unitId, typeId and model.
The model registry (`lib/PowerTagRegistry`) is not under `src/`, so the
two lookup functions are abstract parameters (`models` by type id,
`modelByRef` by commercial-reference string).
-/

/-- A Modbus gateway as a read oracle: `read unitId startRegister count`
yields the register values on success and `none` on a timeout or a
Modbus exception response. -/
structure Gateway where
  read : Nat → Nat → Nat → Option (List Nat)

/-- A read request as issued on the wire: (unit id, start register, count). -/
abbrev ReadRequest := Nat × Nat × Nat

/-- Whitespace for ECMAScript `String.prototype.trim`, restricted to the
code points reachable from a single byte: TAB, LF, VT, FF, CR, SPACE and
NO-BREAK SPACE. -/
def isJsWhitespace (c : Char) : Bool :=
  c.toNat = 9 || c.toNat = 10 || c.toNat = 11 || c.toNat = 12 ||
  c.toNat = 13 || c.toNat = 32 || c.toNat = 160

/-- Drop leading and trailing JS whitespace from a character list; this
models `String.prototype.trim` on the string those characters form. -/
def jsTrimList (l : List Char) : List Char :=
  ((l.dropWhile isJsWhitespace).reverse.dropWhile isJsWhitespace).reverse

/-- Embedding of `parseAsciiBuffer`: scan the bytes left to right, stop at
the first zero byte, interpret each remaining byte as a character
(`String.fromCharCode`), then trim. -/
def parseAsciiBuffer (buf : List Nat) : String :=
  String.mk (jsTrimList ((buf.takeWhile (fun b => b != 0)).map Char.ofNat))

/-- Byte view of a register buffer: each 16-bit register contributes its
high byte then its low byte (`valuesAsBuffer` is big-endian). -/
def regsToBytes (regs : List Nat) : List Nat :=
  (regs.map (fun r => [r / 256 % 256, r % 256])).flatten

/-- Big-endian 32-bit pattern at register index `i` of a register buffer
(the source reads byte offset `2*i` with `readFloatBE`). -/
def beRegs32 (regs : List Nat) (i : Nat) : Nat :=
  regs.getD i 0 * 65536 + regs.getD (i + 1) 0

/-- Big-endian 64-bit pattern at register index `i` of a register buffer
(the source reads byte offset `2*i` with `readBigInt64BE`). -/
def beRegs64 (regs : List Nat) (i : Nat) : Nat :=
  ((regs.getD i 0 * 65536 + regs.getD (i + 1) 0) * 65536 +
    regs.getD (i + 2) 0) * 65536 + regs.getD (i + 3) 0

-- Register addresses, exactly as in the helper module.

def REG_CURRENT_L1 : Nat := 2999
def REG_VOLTAGE_LN_1 : Nat := 3027
def REG_VOLTAGE_LL_1 : Nat := 3019
def REG_POWER_L1 : Nat := 3053
def REG_POWER_FACTOR : Nat := 3083
def REG_FREQUENCY : Nat := 3109
def REG_TEMPERATURE : Nat := 3131
def REG_ENERGY_TOTAL : Nat := 3203
def REG_DEVICE_TYPE : Nat := 31024
def REG_DEVICE_NAME : Nat := 31000
def REG_PAS_DEVICE_ADDRESS : Nat := 504
def REG_COMMERCIAL_REF : Nat := 31060
def REG_HEATTAG_TEMP : Nat := 4001
def REG_HEATTAG_HUMIDITY : Nat := 4007
def REG_HEATTAG_ALARM : Nat := 3323
def REG_DI1_STATUS : Nat := 34065
def REG_DI2_STATUS : Nat := 34165
def REG_DO1_CMD : Nat := 37051
def REG_DO1_STATUS : Nat := 37052

/-- Embedding of `readDeviceType`: one-register read of the device-type
register, decoded as `readUInt16BE(0)`, i.e. the first register value. -/
def readDeviceType (gw : Gateway) (unitId : Nat) : Option Nat :=
  (gw.read unitId REG_DEVICE_TYPE 1).map (fun regs => regs.getD 0 0)

/-- Embedding of `readDeviceName`: 10-register read decoded by
`parseAsciiBuffer`. -/
def readDeviceName (gw : Gateway) (unitId : Nat) : Option String :=
  (gw.read unitId REG_DEVICE_NAME 10).map
    (fun regs => parseAsciiBuffer (regsToBytes regs))

/-- Embedding of `readCommercialReference`: 16-register read decoded by
`parseAsciiBuffer`. -/
def readCommercialReference (gw : Gateway) (unitId : Nat) : Option String :=
  (gw.read unitId REG_COMMERCIAL_REF 16).map
    (fun regs => parseAsciiBuffer (regsToBytes regs))

/-- The unit-id value the source reads for one slot of the Panel-Server
address table: register offset `(slot-1)*5` into the concatenated chunks,
located as chunk `offset / 125`, register `offset % 125` within the chunk
(the source multiplies by 2 because it indexes bytes). -/
def slotUnitId (chunks : List (List Nat)) (slot : Nat) : Nat :=
  let regOffset := (slot - 1) * 5
  (chunks.getD (regOffset / 125) []).getD (regOffset % 125) 0

/-- The slot-to-unitId association list the source builds from the four
chunks: slots 1..99 in ascending order (JS `Map` preserves insertion
order), keeping slots whose unit id is neither 0 nor 65535. -/
def buildAddressMap (chunks : List (List Nat)) : List (Nat × Nat) :=
  (List.range' 1 99).filterMap (fun slot =>
    let unitId := slotUnitId chunks slot
    if unitId ≠ 0 ∧ unitId ≠ 65535 then some (slot, unitId) else none)

/-- Embedding of `readPanelServerDeviceAddresses` (always invoked with the
client addressed to gateway unit 255).  Returns the list of chunk read
requests issued (all four are issued up front via `Promise.all`) together
with the result: `none` when any chunk read fails, otherwise the
slot-to-unitId table. -/
def readPanelServerDeviceAddresses (gw : Gateway) :
    List ReadRequest × Option (List (Nat × Nat)) :=
  let baseReg := REG_PAS_DEVICE_ADDRESS
  let reqs : List ReadRequest :=
    [(255, baseReg, 125), (255, baseReg + 125, 125),
     (255, baseReg + 250, 125), (255, baseReg + 375, 120)]
  (reqs, do
    let c0 ← gw.read 255 baseReg 125
    let c1 ← gw.read 255 (baseReg + 125) 125
    let c2 ← gw.read 255 (baseReg + 250) 125
    let c3 ← gw.read 255 (baseReg + 375) 120
    pure (buildAddressMap [c0, c1, c2, c3]))

/-- Voltage mode of a model.  Modelled from the spec: the `VoltageMode`
type lives in `lib/types.ts`, which is not under `src/`; the spec (§3)
gives the three modes L-N, L-L and none.  The driver only ever compares
the mode against the string `'L-N'`. -/
inductive VoltageMode where
  | LN
  | LL
  | noVolt
deriving DecidableEq

/-- Join a list of block reads the way `Promise.all` does: every request
in the list is issued; the join succeeds with all buffers exactly when
every read succeeds, and fails when any read fails. -/
def runBlocks (gw : Gateway) : List ReadRequest → Option (List (List Nat))
  | [] => some []
  | q :: rest =>
    (gw.read q.1 q.2.1 q.2.2).bind
      (fun buf => (runBlocks gw rest).map (fun bufs => buf :: bufs))

/-- Decoded energy-family snapshot.  Fields are the raw big-endian bit
patterns handed to `readFloatBE` (4 bytes) resp. `readBigInt64BE`
(8 bytes, `totalEnergy`, before the Wh-to-kWh division); the IEEE-754
value interpretation is outside the embedding. -/
structure EnergyPollResult where
  currentL1 : Nat
  currentL2 : Nat
  currentL3 : Nat
  voltagePh1 : Nat
  voltagePh2 : Nat
  voltagePh3 : Nat
  powerL1 : Nat
  powerL2 : Nat
  powerL3 : Nat
  totalPower : Nat
  powerFactor : Nat
  frequency : Nat
  temperature : Nat
  totalEnergy : Nat
deriving DecidableEq

/-- Embedding of `readAllRegisters`: the seven block-read requests are
listed first (all issued via `Promise.all` before any result is awaited),
then joined; the snapshot exists exactly when every block read
succeeded.  The buffers are destructured positionally as in the source. -/
def readAllRegisters (gw : Gateway) (unitId : Nat) (voltageMode : VoltageMode) :
    List ReadRequest × Option EnergyPollResult :=
  let voltStart := if voltageMode = VoltageMode.LN then REG_VOLTAGE_LN_1 else REG_VOLTAGE_LL_1
  let reqs : List ReadRequest :=
    [(unitId, REG_CURRENT_L1, 6), (unitId, voltStart, 6),
     (unitId, REG_POWER_L1, 8), (unitId, REG_POWER_FACTOR, 2),
     (unitId, REG_FREQUENCY, 2), (unitId, REG_TEMPERATURE, 2),
     (unitId, REG_ENERGY_TOTAL, 4)]
  (reqs, (runBlocks gw reqs).map (fun bufs =>
    let currBuf := bufs.getD 0 []
    let voltBuf := bufs.getD 1 []
    let powerBuf := bufs.getD 2 []
    let pfBuf := bufs.getD 3 []
    let freqBuf := bufs.getD 4 []
    let tempBuf := bufs.getD 5 []
    let energyBuf := bufs.getD 6 []
    { currentL1 := beRegs32 currBuf 0
      currentL2 := beRegs32 currBuf 2
      currentL3 := beRegs32 currBuf 4
      voltagePh1 := beRegs32 voltBuf 0
      voltagePh2 := beRegs32 voltBuf 2
      voltagePh3 := beRegs32 voltBuf 4
      powerL1 := beRegs32 powerBuf 0
      powerL2 := beRegs32 powerBuf 2
      powerL3 := beRegs32 powerBuf 4
      totalPower := beRegs32 powerBuf 6
      powerFactor := beRegs32 pfBuf 0
      frequency := beRegs32 freqBuf 0
      temperature := beRegs32 tempBuf 0
      totalEnergy := beRegs64 energyBuf 0 }))

/-- Decoded HeatTag snapshot: raw float32 bit patterns for temperature and
humidity (the source then multiplies the humidity float by 100), exact
uint16 for the alarm level. -/
structure HeatTagPollResult where
  temperature : Nat
  humidity : Nat
  alarmLevel : Nat
deriving DecidableEq

/-- Embedding of `readHeatTagRegisters`: three block reads joined as by
`Promise.all`. -/
def readHeatTagRegisters (gw : Gateway) (unitId : Nat) :
    List ReadRequest × Option HeatTagPollResult :=
  let reqs : List ReadRequest :=
    [(unitId, REG_HEATTAG_TEMP, 2), (unitId, REG_HEATTAG_HUMIDITY, 2),
     (unitId, REG_HEATTAG_ALARM, 1)]
  (reqs, (runBlocks gw reqs).map (fun bufs =>
    { temperature := beRegs32 (bufs.getD 0 []) 0
      humidity := beRegs32 (bufs.getD 1 []) 0
      alarmLevel := (bufs.getD 2 []).getD 0 0 }))

/-- Decoded Control 2DI snapshot: register value 0 means On, so the
booleans are the inverted register values. -/
structure Control2DIPollResult where
  di1Status : Bool
  di2Status : Bool
deriving DecidableEq

/-- Embedding of `readControl2DIRegisters`: two block reads joined as by
`Promise.all`; a register value of 0 decodes to `true` (On). -/
def readControl2DIRegisters (gw : Gateway) (unitId : Nat) :
    List ReadRequest × Option Control2DIPollResult :=
  let reqs : List ReadRequest :=
    [(unitId, REG_DI1_STATUS, 1), (unitId, REG_DI2_STATUS, 1)]
  (reqs, (runBlocks gw reqs).map (fun bufs =>
    { di1Status := (bufs.getD 0 []).getD 0 0 == 0
      di2Status := (bufs.getD 1 []).getD 0 0 == 0 }))

/-- Decoded Control IO snapshot: input inverted (0 = On), output direct
(1 = On). -/
structure ControlIOPollResult where
  di1Status : Bool
  outputStatus : Bool
deriving DecidableEq

/-- Embedding of `readControlIORegisters`: two block reads joined as by
`Promise.all`. -/
def readControlIORegisters (gw : Gateway) (unitId : Nat) :
    List ReadRequest × Option ControlIOPollResult :=
  let reqs : List ReadRequest :=
    [(unitId, REG_DI1_STATUS, 1), (unitId, REG_DO1_STATUS, 1)]
  (reqs, (runBlocks gw reqs).map (fun bufs =>
    { di1Status := (bufs.getD 0 []).getD 0 0 == 0
      outputStatus := (bufs.getD 1 []).getD 0 0 == 1 }))

/-- Embedding of `writeControlIOOutput`: the list of single-register write
transactions (register, value) the call issues.  The source's boolean
parameter is named `on`, a reserved token in Lean, hence `onFlag`. -/
def writeControlIOOutput (onFlag : Bool) : List (Nat × Nat) :=
  [(REG_DO1_CMD, if onFlag then 2 else 1)]

/-- Model descriptor as used by the driver (the registry module itself is
not under `src/`; only the fields the driver reads are modelled:
`typeId`, `name`, `model`). -/
structure PowerTagModelConfig where
  typeId : Nat
  name : String
  model : String
deriving DecidableEq

/-- The device entry `buildDeviceEntry` produces, restricted to the
discovery-relevant fields (name and the `store` fields unitId, typeId,
model); `data.id`, `settings` and the capability lists are platform
collaborator metadata and are not modelled. -/
structure DeviceEntry where
  name : String
  unitId : Nat
  typeId : Nat
  model : String
deriving DecidableEq

/-- Embedding of `buildDeviceEntry`: an empty device name (JS falsy)
falls back to the model name followed by the unit id in parentheses. -/
def buildDeviceEntry (unitId typeId : Nat) (modelConfig : PowerTagModelConfig)
    (deviceName : String) : DeviceEntry :=
  { name := if deviceName = "" then
      modelConfig.name ++ " (" ++ toString unitId ++ ")"
    else deviceName
    unitId := unitId
    typeId := typeId
    model := modelConfig.model }

/-- One iteration of the Panel-Server slot loop in
`discoverViaPanelServer`: read the commercial reference (a failure is
caught by the per-slot try/catch and skips the slot), skip empty or
unknown references, read the optional device name (its failure is caught
and falls back to the empty name), and build the entry.  `none` means
the slot is skipped. -/
def processSlot (gw : Gateway) (modelByRef : String → Option PowerTagModelConfig)
    (unitId : Nat) : Option DeviceEntry :=
  match readCommercialReference gw unitId with
  | none => none
  | some reference =>
    if reference = "" then none
    else
      match modelByRef reference with
      | none => none
      | some modelConfig =>
        let deviceName := (readDeviceName gw unitId).getD ""
        some (buildDeviceEntry unitId modelConfig.typeId modelConfig deviceName)

/-- Embedding of `discoverViaPanelServer`: read the address table from
gateway unit 255 (`none` = the strategy throws, to be caught by the
caller), then process each occupied slot in table order; per-slot
failures skip the slot only. -/
def discoverViaPanelServer (gw : Gateway)
    (modelByRef : String → Option PowerTagModelConfig) :
    Option (List DeviceEntry) :=
  match (readPanelServerDeviceAddresses gw).2 with
  | none => none
  | some addressMap =>
    some (addressMap.filterMap (fun su => processSlot gw modelByRef su.2))

/-- Outcome of one successfully-read unit in `scanUnitRange`: `none` when
the type id is an empty-unit marker (0 or 65535) or resolves to no known
model, otherwise the device entry (the optional name read's failure is
caught and falls back to the empty name). -/
def scanHandleSuccess (gw : Gateway)
    (models : Nat → Option PowerTagModelConfig)
    (unitId typeId : Nat) : Option DeviceEntry :=
  if typeId = 0 ∨ typeId = 65535 then none
  else
    match models typeId with
    | none => none
    | some modelConfig =>
      let deviceName := (readDeviceName gw unitId).getD ""
      some (buildDeviceEntry unitId typeId modelConfig deviceName)

/-- The loop body of `scanUnitRange` over the remaining unit ids, carrying
the consecutive-timeout counter.  Returns the discovered devices together
with the list of unit ids actually probed with a device-type read (each
probed unit is exactly one device-type read request).  A failed read
increments the counter and stops the scan once it reaches
`maxConsecutiveTimeouts`; any successful read resets the counter to 0. -/
def scanGo (gw : Gateway) (models : Nat → Option PowerTagModelConfig)
    (maxConsecutiveTimeouts : Nat) :
    Nat → List Nat → List DeviceEntry × List Nat
  | _, [] => ([], [])
  | consecutiveTimeouts, unitId :: rest =>
    match readDeviceType gw unitId with
    | none =>
      if consecutiveTimeouts + 1 ≥ maxConsecutiveTimeouts then ([], [unitId])
      else
        let r := scanGo gw models maxConsecutiveTimeouts (consecutiveTimeouts + 1) rest
        (r.1, unitId :: r.2)
    | some typeId =>
      let r := scanGo gw models maxConsecutiveTimeouts 0 rest
      match scanHandleSuccess gw models unitId typeId with
      | none => (r.1, unitId :: r.2)
      | some dev => (dev :: r.1, unitId :: r.2)

/-- Embedding of `scanUnitRange`: scan unit ids `startId` to `endId - 1`
in ascending order with the consecutive-timeout counter starting at 0. -/
def scanUnitRange (gw : Gateway) (models : Nat → Option PowerTagModelConfig)
    (startId endId : Nat) (maxConsecutiveTimeouts : Nat := 10) :
    List DeviceEntry × List Nat :=
  scanGo gw models maxConsecutiveTimeouts 0 (List.range' startId (endId - startId))

/-- Embedding of the post-connection body of `discoverDevices`, with the
source's failure behaviour made explicit in `Except`: the Panel-Server
strategy's failure is caught (falling back to the empty device list), and
the three range scans (which absorb per-unit failures internally) run
exactly when the Panel-Server strategy produced no devices. -/
def discoverDevicesE (gw : Gateway)
    (models : Nat → Option PowerTagModelConfig)
    (modelByRef : String → Option PowerTagModelConfig) :
    Except String (List DeviceEntry) :=
  let devices :=
    match discoverViaPanelServer gw modelByRef with
    | some ds => ds
    | none => []
  if devices.length = 0 then
    let smartlink := (scanUnitRange gw models 150 170).1
    let lower := (scanUnitRange gw models 100 150 3).1
    let upper := (scanUnitRange gw models 170 200 3).1
    Except.ok (smartlink ++ lower ++ upper)
  else
    Except.ok devices

/-- The device list discovery returns once the TCP connection is up. -/
def discoverDevices (gw : Gateway)
    (models : Nat → Option PowerTagModelConfig)
    (modelByRef : String → Option PowerTagModelConfig) : List DeviceEntry :=
  match discoverDevicesE gw models modelByRef with
  | Except.ok ds => ds
  | Except.error _ => []

/-- A gateway on which every request fails (times out). -/
def gwFail : Gateway := ⟨fun _ _ _ => none⟩

/-- An empty type-id registry. -/
def models0 : Nat → Option PowerTagModelConfig := fun _ => none

/-- Register values of a contiguous chunk of a register file `regVal`. -/
def chunkOf (regVal : Nat → Nat) (start count : Nat) : List Nat :=
  (List.range count).map (fun i => regVal (start + i))

/-- A concrete model descriptor for the commercial reference "A9MEM1541". -/
def mcA9 : PowerTagModelConfig :=
  { typeId := 17218, name := "PowerTag M63 1P", model := "A9MEM1541" }

/-- A registry resolving exactly the reference "A9MEM1541". -/
def modelByRefA9 : String → Option PowerTagModelConfig :=
  fun reference => if reference = "A9MEM1541" then some mcA9 else none

/-- Register buffer of the 16-register commercial-reference read holding
the ASCII string "A9MEM1541" followed by zero bytes. -/
def refRegsA9 : List Nat :=
  [16697, 19781, 19761, 13620, 12544, 0, 0, 0, 0, 0, 0, 0, 0, 0, 0, 0]

/-- A Panel-Server-style gateway: unit 255 serves the address table of the
register file `regVal` in the four protocol chunks, any unit answers the
commercial-reference read with `refs`, and every other request fails. -/
def panelOnlyGateway (regVal : Nat → Nat) (refs : Nat → Option (List Nat)) :
    Gateway :=
  ⟨fun u r c =>
    if u = 255 ∧ r = 504 ∧ c = 125 then some (chunkOf regVal 504 125)
    else if u = 255 ∧ r = 629 ∧ c = 125 then some (chunkOf regVal 629 125)
    else if u = 255 ∧ r = 754 ∧ c = 125 then some (chunkOf regVal 754 125)
    else if u = 255 ∧ r = 879 ∧ c = 120 then some (chunkOf regVal 879 120)
    else if r = 31060 ∧ c = 16 then refs u
    else none⟩

/-- Register file with exactly one occupied slot: slot 5 (register 524)
holds unit id 42. -/
def regValSlot5 : Nat → Nat := fun r => if r = 524 then 42 else 0

/-- Gateway whose table has exactly slot 5 occupied, mapping to unit 42,
and whose unit 42 reports commercial reference "A9MEM1541". -/
def gwSlot5 : Gateway :=
  panelOnlyGateway regValSlot5
    (fun u => if u = 42 then some refRegsA9 else none)

/-- Register file where slots 1 and 2 (registers 504 and 509) both hold
unit id 42. -/
def regValDup : Nat → Nat := fun r => if r = 504 ∨ r = 509 then 42 else 0

/-- Gateway whose table lists unit 42 in two different slots. -/
def gwDup : Gateway :=
  panelOnlyGateway regValDup
    (fun u => if u = 42 then some refRegsA9 else none)

/-- A model descriptor for the synthetic scan type id 100. -/
def mcScan : PowerTagModelConfig :=
  { typeId := 100, name := "PowerTag Scan", model := "SCAN100" }

/-- A registry resolving exactly type id 100. -/
def modelsScan : Nat → Option PowerTagModelConfig :=
  fun t => if t = 100 then some mcScan else none

/-- Gateway with a single device at unit 150 of type 100 and no other
responding register. -/
def gwScanOne : Gateway :=
  ⟨fun u r c => if u = 150 ∧ r = 31024 ∧ c = 1 then some [100] else none⟩



/-- Helper: `takeWhile` passes over a prefix on which the predicate holds. -/
theorem takeWhile_append_of_all {α : Type} {p : α → Bool} :
    ∀ {l₁ : List α}, (∀ a ∈ l₁, p a) →
      ∀ l₂ : List α, (l₁ ++ l₂).takeWhile p = l₁ ++ l₂.takeWhile p := by
  intro l₁
  induction l₁ with
  | nil => intro _ l₂; simp
  | cons a t ih =>
    intro h l₂
    have ha : p a := h a (by simp)
    simp [List.takeWhile_cons, ha]
    exact ih (fun x hx => h x (by simp [hx])) l₂

/-- C7: for every byte buffer, `parseAsciiBuffer` returns the characters
up to the first zero byte (or the buffer end if no zero byte occurs) with
leading and trailing JS whitespace trimmed, passing every non-zero byte
(printable or not) through unchanged, and it is a total function (never
throws); in particular a 32-byte buffer holding "A9MEM1560" followed by
zero bytes decodes to "A9MEM1560". -/
theorem parseAsciiBuffer_spec :
    (∀ p r : List Nat, (∀ b ∈ p, b ≠ 0) →
      parseAsciiBuffer (p ++ 0 :: r) = String.mk (jsTrimList (p.map Char.ofNat))) ∧
    (∀ p : List Nat, (∀ b ∈ p, b ≠ 0) →
      parseAsciiBuffer p = String.mk (jsTrimList (p.map Char.ofNat))) ∧
    parseAsciiBuffer ([65, 57, 77, 69, 77, 49, 53, 54, 48] ++ List.replicate 23 0) =
      "A9MEM1560" := by
  refine ⟨?_, ?_, by decide⟩
  · intro p r h
    unfold parseAsciiBuffer
    rw [takeWhile_append_of_all (fun a ha => by simpa using h a ha)]
    simp [List.takeWhile_cons]
  · intro p h
    unfold parseAsciiBuffer
    rw [List.takeWhile_eq_self_iff.mpr (fun a ha => by simpa using h a ha)]

/-- Witness for C7 at a concrete input: buffer with a leading space, two
letters, a zero byte and trailing garbage. -/
theorem parseAsciiBuffer_spec_witness :
    (∀ b ∈ [32, 65, 66], b ≠ 0) ∧
    parseAsciiBuffer ([32, 65, 66] ++ 0 :: [67]) =
      String.mk (jsTrimList ([32, 65, 66].map Char.ofNat)) :=
  ⟨by decide, parseAsciiBuffer_spec.1 [32, 65, 66] [67] (by decide)⟩

/-- C8: `writeControlIOOutput true` issues exactly one single-register
write of value 2 to the output-command register 37051, and
`writeControlIOOutput false` issues exactly one single-register write of
value 1 to the same register. -/
theorem writeControlIOOutput_spec :
    writeControlIOOutput true = [(REG_DO1_CMD, 2)] ∧
    writeControlIOOutput false = [(REG_DO1_CMD, 1)] ∧
    REG_DO1_CMD = 37051 :=
  ⟨rfl, rfl, rfl⟩

/-- Helper: on a gateway where every device-type read fails, the scan
finds no devices and probes exactly `min (threshold - counter) range`
units. -/
theorem scanGo_allFail (gw : Gateway) (models : Nat → Option PowerTagModelConfig)
    (maxCT : Nat) (hfail : ∀ u, readDeviceType gw u = none) :
    ∀ (units : List Nat) (ct : Nat), ct < maxCT →
      (scanGo gw models maxCT ct units).1 = [] ∧
      (scanGo gw models maxCT ct units).2.length = min (maxCT - ct) units.length := by
  intro units
  induction units with
  | nil => intro ct _; simp [scanGo]
  | cons u rest ih =>
    intro ct hct
    by_cases hbreak : ct + 1 ≥ maxCT
    · have hgo : scanGo gw models maxCT ct (u :: rest) = ([], [u]) := by
        simp [scanGo, hfail u, hbreak]
      rw [hgo]
      refine ⟨rfl, ?_⟩
      simp only [List.length_cons, List.length_nil]
      omega
    · have hct' : ct + 1 < maxCT := by omega
      have ihr := ih (ct + 1) hct'
      have hgo : scanGo gw models maxCT ct (u :: rest) =
          ((scanGo gw models maxCT (ct + 1) rest).1,
            u :: (scanGo gw models maxCT (ct + 1) rest).2) := by
        simp [scanGo, hfail u, hbreak]
      rw [hgo]
      refine ⟨ihr.1, ?_⟩
      simp only [List.length_cons, ihr.2]
      omega

/-- Counterexample to C3 as stated: with a consecutive-timeout threshold
of 3, a gateway timing out on every request, and the range [100, 102) of
size 2, the scan issues 2 device-type read requests, not 3: the loop ends
at the range bound before the threshold is reached. -/
theorem scanUnitRange_small_range_cex :
    ¬ (scanUnitRange gwFail models0 100 102 3).2.length = 3 := by decide

/-- C3 (amended): on a gateway where every device-type read fails, a scan
of [startId, endId) with consecutive-timeout threshold 3 finds no device
and issues exactly `min 3 (endId - startId)` read requests: exactly 3
whenever the range holds at least 3 unit ids, and `endId - startId`
otherwise. -/
theorem scanUnitRange_allFail_three (gw : Gateway)
    (models : Nat → Option PowerTagModelConfig) (startId endId : Nat)
    (hfail : ∀ u, readDeviceType gw u = none) :
    (scanUnitRange gw models startId endId 3).1 = [] ∧
    (scanUnitRange gw models startId endId 3).2.length = min 3 (endId - startId) := by
  have h := scanGo_allFail gw models 3 hfail (List.range' startId (endId - startId)) 0
    (by omega)
  unfold scanUnitRange
  simpa using h

/-- Witness for C3 at a concrete input: the all-failing gateway over the
range [100, 110). -/
theorem scanUnitRange_allFail_three_witness :
    (∀ u, readDeviceType gwFail u = none) ∧
    ((scanUnitRange gwFail models0 100 110 3).1 = [] ∧
      (scanUnitRange gwFail models0 100 110 3).2.length = min 3 (110 - 100)) :=
  ⟨fun _ => rfl, scanUnitRange_allFail_three gwFail models0 100 110 (fun _ => rfl)⟩

/-- Helper: whenever the scan loop stops before exhausting its unit list,
the probed-unit list ends in a block of consecutive failed device-type
reads; the block has length `maxCT` unless the whole probed list consists
of failures that, together with the incoming counter value, reach the
threshold. -/
theorem scanGo_early (gw : Gateway) (models : Nat → Option PowerTagModelConfig)
    (maxCT : Nat) :
    ∀ (units : List Nat) (ct : Nat), ct < maxCT →
      (scanGo gw models maxCT ct units).2.length < units.length →
      ∃ k, 0 < k ∧ k ≤ (scanGo gw models maxCT ct units).2.length ∧
        (k = maxCT ∨
          (k = (scanGo gw models maxCT ct units).2.length ∧ k + ct = maxCT)) ∧
        ∀ u ∈ (scanGo gw models maxCT ct units).2.drop
            ((scanGo gw models maxCT ct units).2.length - k),
          readDeviceType gw u = none := by
  intro units
  induction units with
  | nil => intro ct _ hlt; simp [scanGo] at hlt
  | cons u rest ih =>
    intro ct hct hlt
    cases hread : readDeviceType gw u with
    | none =>
      by_cases hbreak : ct + 1 ≥ maxCT
      · have hgo : scanGo gw models maxCT ct (u :: rest) = ([], [u]) := by
          simp [scanGo, hread, hbreak]
        rw [hgo]
        refine ⟨1, by omega, by simp, Or.inr ⟨by simp, by omega⟩, ?_⟩
        intro x hx
        simp only [List.length_cons, List.length_nil, Nat.sub_self,
          List.drop_zero, List.mem_singleton] at hx
        rw [hx]
        exact hread
      · have hgo : scanGo gw models maxCT ct (u :: rest) =
            ((scanGo gw models maxCT (ct + 1) rest).1,
              u :: (scanGo gw models maxCT (ct + 1) rest).2) := by
          simp [scanGo, hread, hbreak]
        rw [hgo] at hlt ⊢
        simp only [List.length_cons] at hlt
        have hlt' : (scanGo gw models maxCT (ct + 1) rest).2.length < rest.length := by
          omega
        obtain ⟨k, hk0, hkle, hdisj, hfails⟩ := ih (ct + 1) (by omega) hlt'
        set vs := (scanGo gw models maxCT (ct + 1) rest).2 with hvs
        rcases hdisj with hk | ⟨hk, hsum⟩
        · refine ⟨k, hk0, ?_, Or.inl hk, ?_⟩
          · simp only [List.length_cons]; omega
          · simp only [List.length_cons]
            have heq : vs.length + 1 - k = (vs.length - k) + 1 := by omega
            rw [heq, List.drop_succ_cons]
            exact hfails
        · refine ⟨k + 1, by omega, ?_, Or.inr ⟨?_, by omega⟩, ?_⟩
          · simp only [List.length_cons]; omega
          · simp only [List.length_cons]; omega
          · simp only [List.length_cons]
            have heq : vs.length + 1 - (k + 1) = 0 := by omega
            rw [heq, List.drop_zero]
            intro x hx
            rcases List.mem_cons.mp hx with h1 | h2
            · rw [h1]; exact hread
            · refine hfails x ?_
              have h0 : vs.length - k = 0 := by omega
              rw [h0, List.drop_zero]
              exact h2
    | some t =>
      have hgo2 : (scanGo gw models maxCT ct (u :: rest)).2 =
          u :: (scanGo gw models maxCT 0 rest).2 := by
        cases hs : scanHandleSuccess gw models u t <;> simp [scanGo, hread, hs]
      rw [hgo2] at hlt ⊢
      simp only [List.length_cons] at hlt
      have hlt' : (scanGo gw models maxCT 0 rest).2.length < rest.length := by omega
      obtain ⟨k, hk0, hkle, hdisj, hfails⟩ := ih 0 (by omega) hlt'
      set vs := (scanGo gw models maxCT 0 rest).2 with hvs
      have hk : k = maxCT := by
        rcases hdisj with hk | ⟨_, hsum⟩
        · exact hk
        · omega
      rw [hk] at hkle hfails
      refine ⟨maxCT, by omega, ?_, Or.inl rfl, ?_⟩
      · simp only [List.length_cons]; omega
      · simp only [List.length_cons]
        have heq : vs.length + 1 - maxCT = (vs.length - maxCT) + 1 := by omega
        rw [heq, List.drop_succ_cons]
        exact hfails

/-- C9: the consecutive-timeout counter is reset by every successful
device-type read regardless of the value read, so `scanUnitRange` stops
before exhausting its range only after `maxConsecutiveTimeouts`
consecutive failed reads with no intervening successful response: the
probed-unit list then ends in `maxConsecutiveTimeouts` units whose
device-type reads all failed. -/
theorem scanUnitRange_stop_spec (gw : Gateway)
    (models : Nat → Option PowerTagModelConfig)
    (startId endId maxCT : Nat) (hpos : 1 ≤ maxCT)
    (hearly : (scanUnitRange gw models startId endId maxCT).2.length < endId - startId) :
    maxCT ≤ (scanUnitRange gw models startId endId maxCT).2.length ∧
    ∀ u ∈ (scanUnitRange gw models startId endId maxCT).2.drop
        ((scanUnitRange gw models startId endId maxCT).2.length - maxCT),
      readDeviceType gw u = none := by
  have hlen : (scanGo gw models maxCT 0 (List.range' startId (endId - startId))).2.length <
      (List.range' startId (endId - startId)).length := by
    rw [List.length_range']
    exact hearly
  obtain ⟨k, hk0, hkle, hdisj, hfails⟩ :=
    scanGo_early gw models maxCT (List.range' startId (endId - startId)) 0
      (by omega) hlen
  have hk : k = maxCT := by
    rcases hdisj with hk | ⟨_, hsum⟩
    · exact hk
    · omega
  rw [hk] at hkle hfails
  exact ⟨hkle, hfails⟩

/-- Witness for C9 at a concrete input: the all-failing gateway with
threshold 3 over the range [100, 110); the scan stops after probing
units 100, 101, 102, all of which failed. -/
theorem scanUnitRange_stop_spec_witness :
    1 ≤ 3 ∧ (scanUnitRange gwFail models0 100 110 3).2.length < 110 - 100 ∧
    (3 ≤ (scanUnitRange gwFail models0 100 110 3).2.length ∧
      ∀ u ∈ (scanUnitRange gwFail models0 100 110 3).2.drop
          ((scanUnitRange gwFail models0 100 110 3).2.length - 3),
        readDeviceType gwFail u = none) :=
  ⟨by omega, by decide,
    scanUnitRange_stop_spec gwFail models0 100 110 3 (by omega) (by decide)⟩

/-- Helper: a successful address-table read determines the four chunk
buffers and the resulting table. -/
theorem readPanel_some (gw : Gateway) (l : List (Nat × Nat))
    (h : (readPanelServerDeviceAddresses gw).2 = some l) :
    ∃ c0 c1 c2 c3, gw.read 255 504 125 = some c0 ∧
      gw.read 255 629 125 = some c1 ∧ gw.read 255 754 125 = some c2 ∧
      gw.read 255 879 120 = some c3 ∧ l = buildAddressMap [c0, c1, c2, c3] := by
  simp only [readPanelServerDeviceAddresses, REG_PAS_DEVICE_ADDRESS] at h
  norm_num at h
  cases h0 : gw.read 255 504 125 with
  | none => rw [h0] at h; simp at h
  | some c0 =>
    rw [h0] at h
    cases h1 : gw.read 255 629 125 with
    | none => rw [h1] at h; simp at h
    | some c1 =>
      rw [h1] at h
      cases h2 : gw.read 255 754 125 with
      | none => rw [h2] at h; simp at h
      | some c2 =>
        rw [h2] at h
        cases h3 : gw.read 255 879 120 with
        | none => rw [h3] at h; simp at h
        | some c3 =>
          rw [h3] at h
          simp only [Option.some_bind, Option.some.injEq] at h
          exact ⟨c0, c1, c2, c3, rfl, rfl, rfl, rfl, h.symm⟩

/-- Helper: membership in the address table built from the chunks. -/
theorem buildAddressMap_mem (chunks : List (List Nat)) (s u : Nat) :
    (s, u) ∈ buildAddressMap chunks ↔
      1 ≤ s ∧ s ≤ 99 ∧ u = slotUnitId chunks s ∧ u ≠ 0 ∧ u ≠ 65535 := by
  simp only [buildAddressMap, List.mem_filterMap, List.mem_range'_1]
  constructor
  · rintro ⟨slot, hslot, hf⟩
    by_cases hc : slotUnitId chunks slot ≠ 0 ∧ slotUnitId chunks slot ≠ 65535
    · rw [if_pos hc] at hf
      have hs : slot = s ∧ slotUnitId chunks slot = u := by
        simpa [Prod.ext_iff] using hf
      refine ⟨by omega, by omega, ?_, ?_, ?_⟩
      · rw [← hs.1]; exact hs.2.symm
      · rw [← hs.2]; exact hc.1
      · rw [← hs.2]; exact hc.2
    · rw [if_neg hc] at hf
      cases hf
  · rintro ⟨h1, h99, hu, h0, h65⟩
    refine ⟨s, by omega, ?_⟩
    rw [if_pos (by rw [← hu]; exact ⟨h0, h65⟩)]
    rw [← hu]

/-- Helper: a device produced by a successfully-read scan unit records a
type id that is neither empty marker, at that unit. -/
theorem scanHandleSuccess_some (gw : Gateway)
    (models : Nat → Option PowerTagModelConfig) (u t : Nat) (d : DeviceEntry)
    (h : scanHandleSuccess gw models u t = some d) :
    t ≠ 0 ∧ t ≠ 65535 ∧ d.unitId = u ∧ d.typeId = t := by
  unfold scanHandleSuccess at h
  split_ifs at h with hc
  cases hm : models t with
  | none => rw [hm] at h; cases h
  | some mc =>
    rw [hm] at h
    simp only [Option.some.injEq] at h
    push_neg at hc
    exact ⟨hc.1, hc.2, by rw [← h]; rfl, by rw [← h]; rfl⟩

/-- Helper: every device emitted by the scan loop comes from a successful
device-type read of a value that is neither 0 nor 65535. -/
theorem scanGo_devices_spec (gw : Gateway)
    (models : Nat → Option PowerTagModelConfig) (maxCT : Nat) :
    ∀ (units : List Nat) (ct : Nat) (d : DeviceEntry),
      d ∈ (scanGo gw models maxCT ct units).1 →
      ∃ t, readDeviceType gw d.unitId = some t ∧ t ≠ 0 ∧ t ≠ 65535 ∧
        d.typeId = t := by
  intro units
  induction units with
  | nil => intro ct d hd; simp [scanGo] at hd
  | cons u rest ih =>
    intro ct d hd
    cases hread : readDeviceType gw u with
    | none =>
      by_cases hbreak : ct + 1 ≥ maxCT
      · rw [show scanGo gw models maxCT ct (u :: rest) = ([], [u]) from by
          simp [scanGo, hread, hbreak]] at hd
        simp at hd
      · rw [show (scanGo gw models maxCT ct (u :: rest)).1 =
            (scanGo gw models maxCT (ct + 1) rest).1 from by
          simp [scanGo, hread, hbreak]] at hd
        exact ih (ct + 1) d hd
    | some t =>
      cases hs : scanHandleSuccess gw models u t with
      | none =>
        rw [show (scanGo gw models maxCT ct (u :: rest)).1 =
            (scanGo gw models maxCT 0 rest).1 from by
          simp [scanGo, hread, hs]] at hd
        exact ih 0 d hd
      | some dev =>
        rw [show (scanGo gw models maxCT ct (u :: rest)).1 =
            dev :: (scanGo gw models maxCT 0 rest).1 from by
          simp [scanGo, hread, hs]] at hd
        rcases List.mem_cons.mp hd with h1 | h2
        · obtain ⟨ht0, ht65, hdu, hdt⟩ := scanHandleSuccess_some gw models u t dev hs
          rw [h1, hdu, hread]
          exact ⟨t, rfl, ht0, ht65, hdt⟩
        · exact ih 0 d h2

/-- C6: every unit-id value 0 or 65535 in the Panel-Server address table
is treated as an empty slot and never enters the table, and every unit
whose device-type read returns 0 or 65535 during range scanning is
treated as empty and never emitted: each emitted scan device stems from a
successful device-type read of a value outside {0, 65535}. -/
theorem empty_markers_never_emitted :
    (∀ (gw : Gateway) (l : List (Nat × Nat)),
      (readPanelServerDeviceAddresses gw).2 = some l →
      ∀ s u, (s, u) ∈ l → u ≠ 0 ∧ u ≠ 65535) ∧
    (∀ (gw : Gateway) (models : Nat → Option PowerTagModelConfig)
      (startId endId maxCT : Nat) (d : DeviceEntry),
      d ∈ (scanUnitRange gw models startId endId maxCT).1 →
      ∃ t, readDeviceType gw d.unitId = some t ∧ t ≠ 0 ∧ t ≠ 65535 ∧
        d.typeId = t) := by
  constructor
  · intro gw l hl s u hmem
    obtain ⟨c0, c1, c2, c3, _, _, _, _, hl'⟩ := readPanel_some gw l hl
    rw [hl'] at hmem
    have := (buildAddressMap_mem [c0, c1, c2, c3] s u).mp hmem
    exact ⟨this.2.2.2.1, this.2.2.2.2⟩
  · intro gw models startId endId maxCT d hd
    exact scanGo_devices_spec gw models maxCT _ 0 d hd

/-- The device entry the one-device scan gateway yields at unit 150. -/
def devScan150 : DeviceEntry :=
  { name := "PowerTag Scan (150)", unitId := 150, typeId := 100,
    model := "SCAN100" }

/-- Witness for C6 at concrete inputs: the slot-5 gateway's table entry
(5, 42), and the device found at unit 150 of the one-device scan
gateway. -/
theorem empty_markers_never_emitted_witness :
    ((readPanelServerDeviceAddresses gwSlot5).2 = some [(5, 42)] ∧
      (42 ≠ 0 ∧ 42 ≠ 65535)) ∧
    (devScan150 ∈ (scanUnitRange gwScanOne modelsScan 150 170 10).1 ∧
      ∃ t, readDeviceType gwScanOne devScan150.unitId = some t ∧
        t ≠ 0 ∧ t ≠ 65535 ∧ devScan150.typeId = t) :=
  ⟨⟨by decide,
    empty_markers_never_emitted.1 gwSlot5 [(5, 42)] (by decide) 5 42 (by decide)⟩,
   ⟨by decide,
    empty_markers_never_emitted.2 gwScanOne modelsScan 150 170 10 devScan150
      (by decide)⟩⟩

/-- Helper: a device entry produced for a Panel-Server slot carries the
slot's unit id. -/
theorem processSlot_some (gw : Gateway)
    (modelByRef : String → Option PowerTagModelConfig) (u : Nat)
    (d : DeviceEntry) (h : processSlot gw modelByRef u = some d) :
    d.unitId = u := by
  cases hr : readCommercialReference gw u with
  | none => simp only [processSlot, hr] at h; cases h
  | some reference =>
    simp only [processSlot, hr] at h
    split_ifs at h
    cases hm : modelByRef reference with
    | none => simp only [hm] at h; cases h
    | some mc =>
      simp only [hm, Option.some.injEq] at h
      rw [← h]
      rfl

/-- Helper: a successful Panel-Server strategy run determines the table
and the per-slot device list. -/
theorem discoverViaPanelServer_some (gw : Gateway)
    (modelByRef : String → Option PowerTagModelConfig) (ds : List DeviceEntry)
    (h : discoverViaPanelServer gw modelByRef = some ds) :
    ∃ am, (readPanelServerDeviceAddresses gw).2 = some am ∧
      ds = am.filterMap (fun su => processSlot gw modelByRef su.2) := by
  unfold discoverViaPanelServer at h
  cases ham : (readPanelServerDeviceAddresses gw).2 with
  | none => rw [ham] at h; cases h
  | some am =>
    rw [ham] at h
    simp only [Option.some.injEq] at h
    exact ⟨am, rfl, h.symm⟩

/-- Helper: mapping a projection over a `filterMap` yields a sublist of
mapping a compatible projection over the original list. -/
theorem filterMap_map_sublist {α β γ : Type} (f : α → Option β) (g : β → γ)
    (h : α → γ) (H : ∀ a b, f a = some b → g b = h a) :
    ∀ l : List α, List.Sublist ((l.filterMap f).map g) (l.map h) := by
  intro l
  induction l with
  | nil => simp
  | cons a t ih =>
    cases hf : f a with
    | none =>
      rw [List.filterMap_cons_none hf, List.map_cons]
      exact ih.cons (h a)
    | some b =>
      rw [List.filterMap_cons_some hf, List.map_cons, List.map_cons,
        H a b hf]
      exact ih.cons₂ (h a)

/-- Helper: the unit ids of the devices emitted by the scan loop form a
sublist of the probed unit-id list handed to the loop. -/
theorem scanGo_unitIds_sublist (gw : Gateway)
    (models : Nat → Option PowerTagModelConfig) (maxCT : Nat) :
    ∀ (units : List Nat) (ct : Nat),
      List.Sublist ((scanGo gw models maxCT ct units).1.map DeviceEntry.unitId)
        units := by
  intro units
  induction units with
  | nil => intro ct; simp [scanGo]
  | cons u rest ih =>
    intro ct
    cases hread : readDeviceType gw u with
    | none =>
      by_cases hbreak : ct + 1 ≥ maxCT
      · rw [show scanGo gw models maxCT ct (u :: rest) = ([], [u]) from by
          simp [scanGo, hread, hbreak]]
        simp
      · rw [show (scanGo gw models maxCT ct (u :: rest)).1 =
            (scanGo gw models maxCT (ct + 1) rest).1 from by
          simp [scanGo, hread, hbreak]]
        exact (ih (ct + 1)).cons u
    | some t =>
      cases hs : scanHandleSuccess gw models u t with
      | none =>
        rw [show (scanGo gw models maxCT ct (u :: rest)).1 =
            (scanGo gw models maxCT 0 rest).1 from by
          simp [scanGo, hread, hs]]
        exact (ih 0).cons u
      | some dev =>
        rw [show (scanGo gw models maxCT ct (u :: rest)).1 =
            dev :: (scanGo gw models maxCT 0 rest).1 from by
          simp [scanGo, hread, hs]]
        rw [List.map_cons,
          (scanHandleSuccess_some gw models u t dev hs).2.2.1]
        exact (ih 0).cons₂ u

/-- Helper: scan devices' unit ids form a sublist of the scanned range. -/
theorem scanUnitRange_unitIds_sublist (gw : Gateway)
    (models : Nat → Option PowerTagModelConfig) (startId endId maxCT : Nat) :
    List.Sublist
      ((scanUnitRange gw models startId endId maxCT).1.map DeviceEntry.unitId)
      (List.range' startId (endId - startId)) :=
  scanGo_unitIds_sublist gw models maxCT (List.range' startId (endId - startId)) 0

/-- Counterexample to C2 as stated: on a gateway whose Panel-Server
address table lists unit 42 in two different slots (slots 1 and 2), the
per-slot loop visits unit 42 twice and discovery returns two entries with
the same unitId. -/
theorem discoverDevices_duplicate_cex :
    ¬ ((discoverDevices gwDup models0 modelByRefA9).map
        DeviceEntry.unitId).Nodup := by decide

/-- C2 (amended): when no two Panel-Server slots hold the same unit id
(in particular whenever the table strategy is not used at all), the
device list a discovery run returns never contains two entries with the
same unitId: the Panel-Server loop then visits each unit id at most once,
the range scan visits each unit id of its three pairwise-disjoint ranges
at most once, and the range scan only runs when the Panel-Server strategy
emitted no devices.  (The code does not deduplicate: a table listing one
unit id under two slots makes discovery emit duplicate entries.) -/
theorem discoverDevices_nodup (gw : Gateway)
    (models : Nat → Option PowerTagModelConfig)
    (modelByRef : String → Option PowerTagModelConfig)
    (htable : ∀ l, (readPanelServerDeviceAddresses gw).2 = some l →
      (l.map Prod.snd).Nodup) :
    ((discoverDevices gw models modelByRef).map DeviceEntry.unitId).Nodup := by
  have hscan : ∀ startId endId maxCT,
      (((scanUnitRange gw models startId endId maxCT).1.map
        DeviceEntry.unitId)).Nodup := by
    intro startId endId maxCT
    exact (scanUnitRange_unitIds_sublist gw models startId endId maxCT).nodup
      (List.nodup_range' startId (endId - startId))
  have hbound : ∀ startId endId maxCT x,
      x ∈ (scanUnitRange gw models startId endId maxCT).1.map DeviceEntry.unitId →
      startId ≤ x ∧ x < startId + (endId - startId) := by
    intro startId endId maxCT x hx
    have := (scanUnitRange_unitIds_sublist gw models startId endId maxCT).subset hx
    exact List.mem_range'_1.mp this
  have hscans :
      (((scanUnitRange gw models 150 170).1 ++ (scanUnitRange gw models 100 150 3).1 ++
        (scanUnitRange gw models 170 200 3).1).map DeviceEntry.unitId).Nodup := by
    rw [List.map_append, List.map_append]
    refine List.Nodup.append (List.Nodup.append (hscan 150 170 10) (hscan 100 150 3) ?_)
      (hscan 170 200 3) ?_
    · intro x hx1 hx2
      have h1 := hbound 150 170 10 x hx1
      have h2 := hbound 100 150 3 x hx2
      omega
    · intro x hx1 hx2
      rcases List.mem_append.mp hx1 with hx | hx
      · have h1 := hbound 150 170 10 x hx
        have h2 := hbound 170 200 3 x hx2
        omega
      · have h1 := hbound 100 150 3 x hx
        have h2 := hbound 170 200 3 x hx2
        omega
  cases hp : discoverViaPanelServer gw modelByRef with
  | none =>
    simp only [discoverDevices, discoverDevicesE, hp, List.length_nil, if_pos]
    exact hscans
  | some ds =>
    obtain ⟨am, ham, hds⟩ := discoverViaPanelServer_some gw modelByRef ds hp
    have hnodup_ds : (ds.map DeviceEntry.unitId).Nodup := by
      rw [hds]
      exact (filterMap_map_sublist (fun su => processSlot gw modelByRef su.2)
        DeviceEntry.unitId Prod.snd
        (fun su d hd => processSlot_some gw modelByRef su.2 d hd) am).nodup
        (htable am ham)
    by_cases hlen : ds.length = 0
    · simp only [discoverDevices, discoverDevicesE, hp, hlen, if_pos]
      exact hscans
    · simp only [discoverDevices, discoverDevicesE, hp, hlen, if_neg]
      exact hnodup_ds

/-- Witness for C2 at a concrete input: the slot-5 gateway, whose table
holds each unit id once. -/
theorem discoverDevices_nodup_witness :
    ((discoverDevices gwSlot5 models0 modelByRefA9).map
      DeviceEntry.unitId).Nodup :=
  discoverDevices_nodup gwSlot5 models0 modelByRefA9
    (fun l hl => by
      have : l = [(5, 42)] := by
        have h5 : (readPanelServerDeviceAddresses gwSlot5).2 = some [(5, 42)] := by
          decide
        rw [h5] at hl
        exact (Option.some.injEq _ _).mp hl.symm
      rw [this]
      decide)

/-- Helper: indexing into a chunk of a register file reads the register at
the chunk base plus the index. -/
theorem chunkOf_getD (regVal : Nat → Nat) (start count i : Nat) (h : i < count) :
    (chunkOf regVal start count).getD i 0 = regVal (start + i) := by
  unfold chunkOf
  rw [List.getD_eq_getElem?_getD, List.getElem?_map, List.getElem?_range h]
  rfl

/-- Helper: over the four protocol chunks of a register file, the
slot-indexing arithmetic of the source reads exactly the register
`504 + (slot - 1) * 5`. -/
theorem slotUnitId_chunkOf (regVal : Nat → Nat) (s : Nat) (h1 : 1 ≤ s)
    (h99 : s ≤ 99) :
    slotUnitId [chunkOf regVal 504 125, chunkOf regVal 629 125,
      chunkOf regVal 754 125, chunkOf regVal 879 120] s =
    regVal (504 + (s - 1) * 5) := by
  simp only [slotUnitId]
  have hcases : (s - 1) * 5 / 125 = 0 ∧ (s - 1) * 5 % 125 = (s - 1) * 5 ∨
      (s - 1) * 5 / 125 = 1 ∧ (s - 1) * 5 % 125 = (s - 1) * 5 - 125 ∨
      (s - 1) * 5 / 125 = 2 ∧ (s - 1) * 5 % 125 = (s - 1) * 5 - 250 ∨
      (s - 1) * 5 / 125 = 3 ∧ (s - 1) * 5 % 125 = (s - 1) * 5 - 375 := by
    omega
  rcases hcases with ⟨hd, hm⟩ | ⟨hd, hm⟩ | ⟨hd, hm⟩ | ⟨hd, hm⟩ <;> rw [hd, hm]
  · rw [show [chunkOf regVal 504 125, chunkOf regVal 629 125,
        chunkOf regVal 754 125, chunkOf regVal 879 120].getD 0 [] =
        chunkOf regVal 504 125 from rfl,
      chunkOf_getD regVal 504 125 _ (by omega)]
  · rw [show [chunkOf regVal 504 125, chunkOf regVal 629 125,
        chunkOf regVal 754 125, chunkOf regVal 879 120].getD 1 [] =
        chunkOf regVal 629 125 from rfl,
      chunkOf_getD regVal 629 125 _ (by omega),
      show (629 : Nat) + ((s - 1) * 5 - 125) = 504 + (s - 1) * 5 from by omega]
  · rw [show [chunkOf regVal 504 125, chunkOf regVal 629 125,
        chunkOf regVal 754 125, chunkOf regVal 879 120].getD 2 [] =
        chunkOf regVal 754 125 from rfl,
      chunkOf_getD regVal 754 125 _ (by omega),
      show (754 : Nat) + ((s - 1) * 5 - 250) = 504 + (s - 1) * 5 from by omega]
  · rw [show [chunkOf regVal 504 125, chunkOf regVal 629 125,
        chunkOf regVal 754 125, chunkOf regVal 879 120].getD 3 [] =
        chunkOf regVal 879 120 from rfl,
      chunkOf_getD regVal 879 120 _ (by omega),
      show (879 : Nat) + ((s - 1) * 5 - 375) = 504 + (s - 1) * 5 from by omega]

/-- C4: `readPanelServerDeviceAddresses` reads the 495-register address
table at base register 504 in exactly four chunked reads of 125, 125, 125
and 120 registers; on a gateway serving a register file `regVal`, slot
`s` (1..99) is mapped to the value of register `504 + (s-1)*5` exactly
when that value is neither 0 nor 65535; and on the concrete gateway whose
table has exactly slot 5 occupied with unit 42 and whose unit 42 reports
commercial reference "A9MEM1541" (resolving to a known model), discovery
returns exactly one device, with unitId 42. -/
theorem panelServer_table_spec :
    (∀ gw : Gateway, (readPanelServerDeviceAddresses gw).1 =
      [(255, 504, 125), (255, 629, 125), (255, 754, 125), (255, 879, 120)]) ∧
    (∀ (regVal : Nat → Nat) (gw : Gateway),
      gw.read 255 504 125 = some (chunkOf regVal 504 125) →
      gw.read 255 629 125 = some (chunkOf regVal 629 125) →
      gw.read 255 754 125 = some (chunkOf regVal 754 125) →
      gw.read 255 879 120 = some (chunkOf regVal 879 120) →
      ∀ l, (readPanelServerDeviceAddresses gw).2 = some l →
      ∀ s u, 1 ≤ s → s ≤ 99 →
        ((s, u) ∈ l ↔ u = regVal (504 + (s - 1) * 5) ∧ u ≠ 0 ∧ u ≠ 65535)) ∧
    discoverDevices gwSlot5 models0 modelByRefA9 =
      [{ name := "PowerTag M63 1P (42)", unitId := 42, typeId := 17218,
         model := "A9MEM1541" }] := by
  refine ⟨fun gw => rfl, ?_, by decide⟩
  intro regVal gw hr0 hr1 hr2 hr3 l hl s u h1 h99
  obtain ⟨c0, c1, c2, c3, hc0, hc1, hc2, hc3, hl'⟩ := readPanel_some gw l hl
  rw [hr0] at hc0
  rw [hr1] at hc1
  rw [hr2] at hc2
  rw [hr3] at hc3
  have ec0 : c0 = chunkOf regVal 504 125 := ((Option.some.injEq _ _).mp hc0).symm
  have ec1 : c1 = chunkOf regVal 629 125 := ((Option.some.injEq _ _).mp hc1).symm
  have ec2 : c2 = chunkOf regVal 754 125 := ((Option.some.injEq _ _).mp hc2).symm
  have ec3 : c3 = chunkOf regVal 879 120 := ((Option.some.injEq _ _).mp hc3).symm
  subst ec0 ec1 ec2 ec3
  rw [hl', buildAddressMap_mem, slotUnitId_chunkOf regVal s h1 h99]
  simp [h1, h99]

/-- Witness for C4 at a concrete input: the slot-5 gateway serves the
register file `regValSlot5`; its table is [(5, 42)] and the slot-5 iff
instantiates to membership of (5, 42). -/
theorem panelServer_table_spec_witness :
    (gwSlot5.read 255 504 125 = some (chunkOf regValSlot5 504 125) ∧
      (readPanelServerDeviceAddresses gwSlot5).2 = some [(5, 42)] ∧
      1 ≤ 5 ∧ 5 ≤ 99) ∧
    ((5, 42) ∈ [(5, 42)] ↔
      42 = regValSlot5 (504 + (5 - 1) * 5) ∧ 42 ≠ 0 ∧ 42 ≠ 65535) :=
  ⟨⟨by decide, by decide, by omega, by omega⟩,
   panelServer_table_spec.2.1 regValSlot5 gwSlot5 (by decide) (by decide)
     (by decide) (by decide) [(5, 42)] (by decide) 5 42 (by omega) (by omega)⟩

/-- Helper: the `Promise.all` join succeeds exactly when every block read
of the request list succeeds. -/
theorem runBlocks_isSome (gw : Gateway) :
    ∀ reqs : List ReadRequest,
      (runBlocks gw reqs).isSome = true ↔
        ∀ q ∈ reqs, (gw.read q.1 q.2.1 q.2.2).isSome = true := by
  intro reqs
  induction reqs with
  | nil => simp [runBlocks]
  | cons q rest ih =>
    cases hq : gw.read q.1 q.2.1 q.2.2 with
    | none => simp [runBlocks, hq]
    | some buf => simp [runBlocks, hq, ih]

/-- C5: in each of the four per-family poll functions, the block-read
requests form a fixed list issued up front (they do not depend on any
read's outcome, mirroring `Promise.all`), all are joined before
returning, and the poll yields a snapshot exactly when every block read
succeeded: a failure of any single block read yields no snapshot at all,
never a partial one. -/
theorem poll_no_partial_snapshot :
    ∀ (gw : Gateway) (unitId : Nat) (vm : VoltageMode),
      ((readAllRegisters gw unitId vm).1 =
        [(unitId, REG_CURRENT_L1, 6),
         (unitId, if vm = VoltageMode.LN then REG_VOLTAGE_LN_1 else REG_VOLTAGE_LL_1, 6),
         (unitId, REG_POWER_L1, 8), (unitId, REG_POWER_FACTOR, 2),
         (unitId, REG_FREQUENCY, 2), (unitId, REG_TEMPERATURE, 2),
         (unitId, REG_ENERGY_TOTAL, 4)] ∧
       ((readAllRegisters gw unitId vm).2.isSome = true ↔
         ∀ q ∈ (readAllRegisters gw unitId vm).1,
           (gw.read q.1 q.2.1 q.2.2).isSome = true)) ∧
      ((readHeatTagRegisters gw unitId).1 =
        [(unitId, REG_HEATTAG_TEMP, 2), (unitId, REG_HEATTAG_HUMIDITY, 2),
         (unitId, REG_HEATTAG_ALARM, 1)] ∧
       ((readHeatTagRegisters gw unitId).2.isSome = true ↔
         ∀ q ∈ (readHeatTagRegisters gw unitId).1,
           (gw.read q.1 q.2.1 q.2.2).isSome = true)) ∧
      ((readControl2DIRegisters gw unitId).1 =
        [(unitId, REG_DI1_STATUS, 1), (unitId, REG_DI2_STATUS, 1)] ∧
       ((readControl2DIRegisters gw unitId).2.isSome = true ↔
         ∀ q ∈ (readControl2DIRegisters gw unitId).1,
           (gw.read q.1 q.2.1 q.2.2).isSome = true)) ∧
      ((readControlIORegisters gw unitId).1 =
        [(unitId, REG_DI1_STATUS, 1), (unitId, REG_DO1_STATUS, 1)] ∧
       ((readControlIORegisters gw unitId).2.isSome = true ↔
         ∀ q ∈ (readControlIORegisters gw unitId).1,
           (gw.read q.1 q.2.1 q.2.2).isSome = true)) := by
  intro gw unitId vm
  refine ⟨⟨rfl, ?_⟩, ⟨rfl, ?_⟩, ⟨rfl, ?_⟩, ⟨rfl, ?_⟩⟩
  · simp only [readAllRegisters, Option.isSome_map']
    exact runBlocks_isSome gw _
  · simp only [readHeatTagRegisters, Option.isSome_map']
    exact runBlocks_isSome gw _
  · simp only [readControl2DIRegisters, Option.isSome_map']
    exact runBlocks_isSome gw _
  · simp only [readControlIORegisters, Option.isSome_map']
    exact runBlocks_isSome gw _

/-- C10: every voltage mode other than L-N — including the mode meaning
no voltage support — selects the L-L voltage block at register 3019, and
in every energy-family poll, whatever the mode, the second issued request
is a six-register voltage-block read. -/
theorem voltage_block_selection (gw : Gateway) (unitId : Nat)
    (vm : VoltageMode) (h : vm ≠ VoltageMode.LN) :
    (readAllRegisters gw unitId vm).1 =
      [(unitId, REG_CURRENT_L1, 6), (unitId, REG_VOLTAGE_LL_1, 6),
       (unitId, REG_POWER_L1, 8), (unitId, REG_POWER_FACTOR, 2),
       (unitId, REG_FREQUENCY, 2), (unitId, REG_TEMPERATURE, 2),
       (unitId, REG_ENERGY_TOTAL, 4)] ∧
    ∀ vm' : VoltageMode, ∃ voltStart,
      (readAllRegisters gw unitId vm').1.getD 1 (0, 0, 0) =
        (unitId, voltStart, 6) := by
  constructor
  · cases vm with
    | LN => exact absurd rfl h
    | LL => rfl
    | noVolt => rfl
  · intro vm'
    cases vm' with
    | LN => exact ⟨REG_VOLTAGE_LN_1, rfl⟩
    | LL => exact ⟨REG_VOLTAGE_LL_1, rfl⟩
    | noVolt => exact ⟨REG_VOLTAGE_LL_1, rfl⟩

/-- Witness for C10 at a concrete input: the no-voltage-support mode on
the all-failing gateway at unit 7. -/
theorem voltage_block_selection_witness :
    VoltageMode.noVolt ≠ VoltageMode.LN ∧
    ((readAllRegisters gwFail 7 VoltageMode.noVolt).1 =
      [(7, REG_CURRENT_L1, 6), (7, REG_VOLTAGE_LL_1, 6),
       (7, REG_POWER_L1, 8), (7, REG_POWER_FACTOR, 2),
       (7, REG_FREQUENCY, 2), (7, REG_TEMPERATURE, 2),
       (7, REG_ENERGY_TOTAL, 4)] ∧
     ∀ vm' : VoltageMode, ∃ voltStart,
       (readAllRegisters gwFail 7 vm').1.getD 1 (0, 0, 0) =
         (7, voltStart, 6)) :=
  ⟨by decide, voltage_block_selection gwFail 7 VoltageMode.noVolt (by decide)⟩

/-- C1: once the TCP connection is established, discovery always returns
a device list and never raises: a Panel-Server strategy failure is caught
and falls through to the range scans, whose per-unit failures are
absorbed by the scan loop itself, so the `Except`-valued embedding of the
post-connection discovery body always returns `Except.ok`. -/
theorem discovery_never_raises :
    ∀ (gw : Gateway) (models : Nat → Option PowerTagModelConfig)
      (modelByRef : String → Option PowerTagModelConfig),
      discoverDevicesE gw models modelByRef =
        Except.ok (discoverDevices gw models modelByRef) := by
  intro gw models modelByRef
  have hok : ∃ ds, discoverDevicesE gw models modelByRef = Except.ok ds := by
    unfold discoverDevicesE
    cases discoverViaPanelServer gw modelByRef <;> dsimp only <;> split <;>
      exact ⟨_, rfl⟩
  obtain ⟨ds, hds⟩ := hok
  rw [hds]
  unfold discoverDevices
  rw [hds]

/-- Witness for C5 at a concrete input: the HeatTag poll on the
all-failing gateway at unit 1. -/
theorem poll_no_partial_snapshot_witness :
    (readHeatTagRegisters gwFail 1).1 =
      [(1, REG_HEATTAG_TEMP, 2), (1, REG_HEATTAG_HUMIDITY, 2),
       (1, REG_HEATTAG_ALARM, 1)] ∧
    ((readHeatTagRegisters gwFail 1).2.isSome = true ↔
      ∀ q ∈ (readHeatTagRegisters gwFail 1).1,
        (gwFail.read q.1 q.2.1 q.2.2).isSome = true) :=
  (poll_no_partial_snapshot gwFail 1 VoltageMode.LL).2.1

/-- Witness for C1 at a concrete input: the all-failing gateway. -/
theorem discovery_never_raises_witness :
    discoverDevicesE gwFail models0 modelByRefA9 =
      Except.ok (discoverDevices gwFail models0 modelByRefA9) :=
  discovery_never_raises gwFail models0 modelByRefA9
